import Mathlib

/-!
Verification of the SchedLab event pipeline (schedlab.bpf.c + schedlab_user.c).

The kernel probe layer and the user-space consumer are shallowly embedded:
BPF hash maps become functions `Nat → Option v`, the one-slot config array
becomes a `Cfg` record (the spec's initialization-ordering invariant makes
the config readable at every firing, so `cfg_load` never fails here),
ring-buffer reservation success is an explicit boolean parameter of each
handler, and each handler returns its new state together with the list of
events it submitted.  64-bit machine arithmetic is `Nat` with wraparound
made explicit where the source can actually wrap (the `now - stamp`
subtractions); counter increments use plain `Nat` addition, since a 64-bit
nanosecond/counter overflow is unreachable in any run.  Comm strings read
with `bpf_core_read_str` are `String` parameters; event fields the producer
leaves unwritten are `Option.none`.
-/

namespace SchedLab

/-- The constant 2^64, the modulus of the source's `__u64` arithmetic. -/
def U64 : Nat := 2 ^ 64

/-- The source's `now - stamp` on `__u64` operands: subtraction modulo 2^64. -/
def u64sub (a b : Nat) : Nat := (U64 + a % U64 - b % U64) % U64

/-- Event kinds, mirroring `enum ev_type` (EV_WAKE=1, EV_SWITCH=2, EV_EXEC=3,
EV_EXIT=4, EV_WAITLONG=6, EV_FORK=7). -/
inductive EvType where
  | EV_WAKE
  | EV_SWITCH
  | EV_EXEC
  | EV_EXIT
  | EV_WAITLONG
  | EV_FORK
deriving DecidableEq

/-- Mirror of `struct ev_switch_payload` (the `prev_cpu`/`next_cpu` fields are
never assigned by any handler in the source and are omitted). -/
structure EvSwitchPayload where
  prev_pid : Nat
  next_pid : Nat
  prev_comm : String
  next_comm : String
  run_ns : Nat
  wait_ns : Nat
deriving DecidableEq

/-- Mirror of `struct event`.  `comm := none` / `sw := none` model fields the
emitting handler never writes (e.g. `comm` of a SWITCH record). -/
structure Event where
  ts_ns : Nat
  type : EvType
  pid : Nat
  comm : Option String
  sw : Option EvSwitchPayload
deriving DecidableEq

/-- Mirror of kernel-side `struct agg` (per-pid aggregates in `agg_by_pid`). -/
structure Agg where
  total_run_ns : Nat
  total_wait_ns : Nat
  switches : Nat
  wakes : Nat
  exec_ts_ns : Nat
deriving DecidableEq

/-- The all-zero aggregate (`struct agg zero = {}`). -/
def aggZero : Agg := ⟨0, 0, 0, 0, 0⟩

/-- Mirror of `struct cfg` in `cfg_map`. -/
structure Cfg where
  wait_alert_ns : Nat
  sample_filter_pid : Nat
deriving DecidableEq

/-- Model of `bpf_map_update_elem(map, &k, &v, BPF_ANY)` on a hash map. -/
def mapUpdate {v : Type} (m : Nat → Option v) (k : Nat) (x : v) : Nat → Option v :=
  fun k' => if k' = k then some x else m k'

/-- Model of `bpf_map_delete_elem(map, &k)` on a hash map. -/
def mapDelete {v : Type} (m : Nat → Option v) (k : Nat) : Nat → Option v :=
  fun k' => if k' = k then none else m k'

/-- The kernel-side mutable state: the `wake_ts`, `oncpu_ts` and `agg_by_pid`
maps of schedlab.bpf.c.  Capacity limits (131072 entries) are not modelled;
no claim under verification depends on table-full behaviour. -/
structure KState where
  wake_ts : Nat → Option Nat
  oncpu_ts : Nat → Option Nat
  agg_by_pid : Nat → Option Agg

/-- Mirror of `pass_filter` from schedlab.bpf.c: with the config record present, a pid
passes unless a non-zero filter pid differs from it. -/
def pass_filter (c : Cfg) (pid : Nat) : Bool :=
  !(c.sample_filter_pid != 0 && c.sample_filter_pid != pid)

/-- Mirror of `agg_touch` from schedlab.bpf.c: look up the pid's aggregate, inserting a
zero record first when absent; returns the map and the entry the source's
returned pointer designates. -/
def agg_touch (m : Nat → Option Agg) (pid : Nat) : (Nat → Option Agg) × Agg :=
  match m pid with
  | some a => (m, a)
  | none => (mapUpdate m pid aggZero, aggZero)

/-- Mirror of `on_wakeup_btf`: stamp the wake time, bump the wake counter, emit an
EV_WAKE record when ring-buffer reservation (`reserveOk`) succeeds. -/
def on_wakeup_btf (cfg : Cfg) (now pid : Nat) (comm : String) (reserveOk : Bool)
    (st : KState) : KState × List Event :=
  if !(pass_filter cfg pid) then (st, [])
  else
    let wake' := mapUpdate st.wake_ts pid now
    let (agg1, a) := agg_touch st.agg_by_pid pid
    let agg2 := mapUpdate agg1 pid { a with wakes := a.wakes + 1 }
    let st' : KState := ⟨wake', st.oncpu_ts, agg2⟩
    if reserveOk then
      (st', [{ ts_ns := now, type := .EV_WAKE, pid := pid, comm := some comm, sw := none }])
    else (st', [])

/-- Mirror of `on_switch_btf` from schedlab.bpf.c, translated statement by statement:
filter check, `run_ns` from the on-CPU stamp of a non-zero `prev_pid`,
wake-stamp consumption and on-CPU stamp write for a non-zero `next_pid`,
the two `agg_touch` read-modify-writes, then the single EV_SWITCH emission
guarded by reservation success.  (The source contains no EV_WAITLONG
emission.) -/
def on_switch_btf (cfg : Cfg) (now prev_pid next_pid : Nat)
    (prev_comm next_comm : String) (reserveOk : Bool) (st : KState) :
    KState × List Event :=
  if !(pass_filter cfg next_pid) && !(pass_filter cfg prev_pid) then (st, [])
  else
    let run_ns : Nat :=
      if prev_pid ≠ 0 then
        match st.oncpu_ts prev_pid with
        | some t => u64sub now t
        | none => 0
      else 0
    let wakeAndWait : (Nat → Option Nat) × Nat :=
      if next_pid ≠ 0 then
        match st.wake_ts next_pid with
        | some w => (mapDelete st.wake_ts next_pid, u64sub now w)
        | none => (st.wake_ts, 0)
      else (st.wake_ts, 0)
    let wake' := wakeAndWait.1
    let wait_ns := wakeAndWait.2
    let oncpu' :=
      if next_pid ≠ 0 then mapUpdate st.oncpu_ts next_pid now else st.oncpu_ts
    let (agg1, ap) := agg_touch st.agg_by_pid prev_pid
    let agg2 := mapUpdate agg1 prev_pid
      { ap with total_run_ns := ap.total_run_ns + run_ns, switches := ap.switches + 1 }
    let (agg3, an) := agg_touch agg2 next_pid
    let agg4 := mapUpdate agg3 next_pid
      { an with total_wait_ns := an.total_wait_ns + wait_ns, switches := an.switches + 1 }
    let st' : KState := ⟨wake', oncpu', agg4⟩
    if reserveOk then
      (st', [{ ts_ns := now, type := .EV_SWITCH, pid := next_pid, comm := none,
               sw := some ⟨prev_pid, next_pid, prev_comm, next_comm, run_ns, wait_ns⟩ }])
    else (st', [])

/-- Mirror of `on_exit_btf`: leader-only guard and filter, then removal of both stamps
and emission of an EV_EXIT record (its timestamp is sampled at emission). -/
def on_exit_btf (cfg : Cfg) (pid tid now : Nat) (comm : String) (reserveOk : Bool)
    (st : KState) : KState × List Event :=
  if pid != tid || !(pass_filter cfg pid) then (st, [])
  else
    let st' : KState := ⟨mapDelete st.wake_ts pid, mapDelete st.oncpu_ts pid, st.agg_by_pid⟩
    if reserveOk then
      (st', [{ ts_ns := now, type := .EV_EXIT, pid := pid, comm := some comm, sw := none }])
    else (st', [])

/-! ## User-space consumer (schedlab_user.c) -/

/-- Mirror of `enum mode` in schedlab_user.c (the seven-mode consumer cited by
the claims; the fork-mode variant lives in a separate patch file). -/
inductive Mode where
  | MODE_STREAM
  | MODE_LATENCY
  | MODE_FAIRNESS
  | MODE_CTX
  | MODE_TIMELINE
  | MODE_SHORTLONG
  | MODE_STARVATION
deriving DecidableEq

/-- The `mode_names[]` array. -/
def mode_names : List String :=
  ["stream", "latency", "fairness", "ctx", "timeline", "shortlong", "starvation"]

/-- The name/value pairs the `parse_mode` loop walks, in array order. -/
def mode_tbl : List (String × Mode) :=
  [("stream", .MODE_STREAM), ("latency", .MODE_LATENCY), ("fairness", .MODE_FAIRNESS),
   ("ctx", .MODE_CTX), ("timeline", .MODE_TIMELINE), ("shortlong", .MODE_SHORTLONG),
   ("starvation", .MODE_STARVATION)]

/-- The `strcmp` loop inside `parse_mode`: first name match wins, otherwise
fall through to `MODE_STREAM`. -/
def find_mode : List (String × Mode) → String → Mode
  | [], _ => .MODE_STREAM
  | (n, m) :: rest, s => if s = n then m else find_mode rest s

/-- Mirror of `parse_mode` from schedlab_user.c. -/
def parse_mode (s : String) : Mode := find_mode mode_tbl s

/-- Mirror of `struct agg_user` (user-side per-task aggregate record). -/
structure AggUser where
  total_run_ns : Nat
  total_wait_ns : Nat
  switches : Nat
  wakes : Nat
  first_exec_ns : Nat
  last_seen_ns : Nat
deriving DecidableEq

/-- The zero-initialized aggregate (the `static` array starts zeroed). -/
def aggUserZero : AggUser := ⟨0, 0, 0, 0, 0, 0⟩

/-- Mirror of `HSIZE` from schedlab_user.c: the fixed size of the `agg_tbl` array. -/
def HSIZE : Nat := 65536

/-- The user-side aggregate store `agg_tbl`, a direct-mapped array read
through index `pid % HSIZE`; modelled as a total function on indices. -/
def AggTbl : Type := Nat → AggUser

/-- The accessor `A(pid)`: the entry at `agg_tbl[pid % HSIZE]`. -/
def A (t : AggTbl) (pid : Nat) : AggUser := t (pid % HSIZE)

/-- A store through the pointer `A(pid)` returns: overwrite slot
`pid % HSIZE`. -/
def A_write (t : AggTbl) (pid : Nat) (v : AggUser) : AggTbl :=
  fun i => if i = pid % HSIZE then v else t i

/-- The switch payload a consumer read yields when the producer never wrote
the union; ring-buffer records in the composed system always carry a written
payload for EV_SWITCH, so the zero default is only a totalizer. -/
def swZero : EvSwitchPayload := ⟨0, 0, "", "", 0, 0⟩

/-- The aggregate-maintenance block at the top of `handle_event`
(schedlab_user.c lines 347-358), including the unconditional
`last_seen_ns` store for the record's primary pid. -/
def update_aggs (t : AggTbl) (e : Event) : AggTbl :=
  let t1 :=
    if e.type = .EV_EXEC then
      if (A t e.pid).first_exec_ns = 0 then
        A_write t e.pid { A t e.pid with first_exec_ns := e.ts_ns }
      else t
    else if e.type = .EV_SWITCH then
      let sw := e.sw.getD swZero
      let ta := A_write t sw.prev_pid
        { A t sw.prev_pid with total_run_ns := (A t sw.prev_pid).total_run_ns + sw.run_ns }
      let tb := A_write ta sw.next_pid
        { A ta sw.next_pid with total_wait_ns := (A ta sw.next_pid).total_wait_ns + sw.wait_ns }
      let tc := A_write tb sw.prev_pid
        { A tb sw.prev_pid with switches := (A tb sw.prev_pid).switches + 1 }
      A_write tc sw.next_pid
        { A tc sw.next_pid with switches := (A tc sw.next_pid).switches + 1 }
    else if e.type = .EV_WAKE then
      A_write t e.pid { A t e.pid with wakes := (A t e.pid).wakes + 1 }
    else t
  A_write t1 e.pid { A t1 e.pid with last_seen_ns := e.ts_ns }

/-- One stdout data line, one constructor per `fprintf`/`printf` call site of
`handle_event`.  Nanosecond quantities rendered as `%.6f` milliseconds are
carried as their raw nanosecond operands; `Option String` comm fields model
the possibly unwritten `e->comm`. -/
inductive Row where
  | hWake (pid : Nat) (comm : Option String)
  | hSwitch (prev_pid : Nat) (prev_comm : String) (next_pid : Nat) (next_comm : String)
      (run_ns wait_ns : Nat)
  | hExec (pid : Nat) (comm : Option String)
  | hExit (pid : Nat) (comm : Option String)
  | hWaitAlert (pid : Nat) (comm : Option String)
  | hLatency (pid value : Nat)
  | hFair (pid run_ns wait_ns switches : Nat)
  | hCtx (prev_pid next_pid run_ns : Nat)
  | hTimeWake (pid : Nat)
  | hTimeSwitch (pid wait_ns run_prev_ns : Nat)
  | hTimeExec (pid : Nat)
  | hTimeExit (pid : Nat)
  | hLifetime (pid life_ns wakes switches : Nat)
  | hStarv (pid : Nat)
  | cStreamSwitch (ts pid : Nat) (comm : Option String) (prev_pid next_pid run_ns wait_ns : Nat)
  | cStreamWake (ts pid : Nat) (comm : Option String)
  | cStreamExec (ts pid : Nat) (comm : Option String)
  | cStreamExit (ts pid : Nat) (comm : Option String)
  | cStreamWaitAlert (ts pid : Nat) (comm : Option String)
  | cLatency (ts next_pid wait_ns : Nat)
  | cFair (pid run_ns wait_ns switches : Nat)
  | cCtx (ts prev_pid next_pid run_ns : Nat)
  | cTimeWake (ts pid : Nat)
  | cTimeSwitch (ts next_pid wait_ns run_ns : Nat)
  | cTimeExec (ts pid : Nat)
  | cTimeExit (ts pid : Nat)
  | cShortlong (pid life_ns wakes switches : Nat)
  | cStarv (ts pid : Nat)
deriving DecidableEq

/-- A line on stdout: the one-time CSV header of the active mode, or a data
row. -/
inductive Line where
  | header (m : Mode)
  | row (r : Row)
deriving DecidableEq

/-- Whether a stdout line is the CSV header line. -/
def isHeader : Line → Bool
  | .header _ => true
  | .row _ => false

/-- The human-readable branch of `handle_event` (the `if (!g_csv)` arm),
call site by call site. -/
def human_rows (m : Mode) (t : AggTbl) (e : Event) : List Row :=
  match m with
  | .MODE_STREAM =>
    match e.type with
    | .EV_WAKE => [.hWake e.pid e.comm]
    | .EV_SWITCH =>
      let sw := e.sw.getD swZero
      [.hSwitch sw.prev_pid sw.prev_comm sw.next_pid sw.next_comm sw.run_ns sw.wait_ns]
    | .EV_EXEC => [.hExec e.pid e.comm]
    | .EV_EXIT => [.hExit e.pid e.comm]
    | .EV_WAITLONG => [.hWaitAlert e.pid e.comm]
    | _ => []
  | .MODE_LATENCY =>
    if e.type = .EV_SWITCH then
      let sw := e.sw.getD swZero
      [.hLatency sw.next_pid sw.wait_ns]
    else []
  | .MODE_FAIRNESS =>
    if e.type = .EV_SWITCH then
      let sw := e.sw.getD swZero
      let an := A t sw.next_pid
      [.hFair sw.next_pid an.total_run_ns an.total_wait_ns an.switches]
    else []
  | .MODE_CTX =>
    if e.type = .EV_SWITCH then
      let sw := e.sw.getD swZero
      [.hCtx sw.prev_pid sw.next_pid sw.run_ns]
    else []
  | .MODE_TIMELINE =>
    match e.type with
    | .EV_WAKE => [.hTimeWake e.pid]
    | .EV_SWITCH =>
      let sw := e.sw.getD swZero
      [.hTimeSwitch sw.next_pid sw.wait_ns sw.run_ns]
    | .EV_EXEC => [.hTimeExec e.pid]
    | .EV_EXIT => [.hTimeExit e.pid]
    | _ => []
  | .MODE_SHORTLONG =>
    if e.type = .EV_EXIT then
      let ax := A t e.pid
      let life := if ax.last_seen_ns > ax.first_exec_ns
                  then ax.last_seen_ns - ax.first_exec_ns else 0
      [.hLifetime e.pid life ax.wakes ax.switches]
    else []
  | .MODE_STARVATION =>
    if e.type = .EV_WAITLONG then [.hStarv e.pid] else []

/-- The CSV branch of `handle_event`, call site by call site. -/
def csv_rows (m : Mode) (t : AggTbl) (e : Event) : List Row :=
  match m with
  | .MODE_STREAM =>
    match e.type with
    | .EV_SWITCH =>
      let sw := e.sw.getD swZero
      [.cStreamSwitch e.ts_ns e.pid e.comm sw.prev_pid sw.next_pid sw.run_ns sw.wait_ns]
    | .EV_WAKE => [.cStreamWake e.ts_ns e.pid e.comm]
    | .EV_EXEC => [.cStreamExec e.ts_ns e.pid e.comm]
    | .EV_EXIT => [.cStreamExit e.ts_ns e.pid e.comm]
    | .EV_WAITLONG => [.cStreamWaitAlert e.ts_ns e.pid e.comm]
    | _ => []
  | .MODE_LATENCY =>
    if e.type = .EV_SWITCH then
      let sw := e.sw.getD swZero
      [.cLatency e.ts_ns sw.next_pid sw.wait_ns]
    else []
  | .MODE_FAIRNESS =>
    if e.type = .EV_SWITCH then
      let sw := e.sw.getD swZero
      let an := A t sw.next_pid
      [.cFair sw.next_pid an.total_run_ns an.total_wait_ns an.switches]
    else []
  | .MODE_CTX =>
    if e.type = .EV_SWITCH then
      let sw := e.sw.getD swZero
      [.cCtx e.ts_ns sw.prev_pid sw.next_pid sw.run_ns]
    else []
  | .MODE_TIMELINE =>
    match e.type with
    | .EV_WAKE => [.cTimeWake e.ts_ns e.pid]
    | .EV_SWITCH =>
      let sw := e.sw.getD swZero
      [.cTimeSwitch e.ts_ns sw.next_pid sw.wait_ns sw.run_ns]
    | .EV_EXEC => [.cTimeExec e.ts_ns e.pid]
    | .EV_EXIT => [.cTimeExit e.ts_ns e.pid]
    | _ => []
  | .MODE_SHORTLONG =>
    if e.type = .EV_EXIT then
      let ax := A t e.pid
      let life := if ax.last_seen_ns > ax.first_exec_ns
                  then ax.last_seen_ns - ax.first_exec_ns else 0
      [.cShortlong e.pid life ax.wakes ax.switches]
    else []
  | .MODE_STARVATION =>
    if e.type = .EV_WAITLONG then [.cStarv e.ts_ns e.pid] else []

/-- The consumer's mutable state: the mode/flag globals and `agg_tbl`. -/
structure CState where
  mode : Mode
  csv : Bool
  csv_header : Bool
  agg : AggTbl

/-- Mirror of `print_csv_header_once`: emit the mode's header line if both CSV flags are
set, then clear `g_csv_header`. -/
def print_csv_header_once (s : CState) : List Line × CState :=
  if !s.csv || !s.csv_header then ([], s)
  else ([Line.header s.mode], { s with csv_header := false })

/-- The ring-buffer callback `handle_event`: maintain the local aggregates,
run the one-time header printer, then render the record in the active mode's
human or CSV form (reading aggregates after the update, as the source
does). -/
def handle_event (s : CState) (e : Event) : CState × List Line :=
  let s1 : CState := { s with agg := update_aggs s.agg e }
  let hdr := (print_csv_header_once s1).1
  let s2 := (print_csv_header_once s1).2
  let rows := if !s2.csv then human_rows s2.mode s2.agg e else csv_rows s2.mode s2.agg e
  (s2, hdr ++ rows.map Line.row)

/-- Serial delivery of a list of ring-buffer records to `handle_event`
(the consumer is single-threaded; `ring_buffer__poll` invokes the callback
once per record). -/
def run_events (s : CState) : List Event → CState × List Line
  | [] => (s, [])
  | e :: rest =>
    ((run_events (handle_event s e).1 rest).1,
     (handle_event s e).2 ++ (run_events (handle_event s e).1 rest).2)

/-- The consumer's steady-state portion of `main`: the pre-loop
`print_csv_header_once` call in CSV mode (the non-CSV banner goes to stderr,
not stdout), then the poll loop delivering every record. -/
def consumer_run (s : CState) (events : List Event) : CState × List Line :=
  if !s.csv then run_events s events
  else
    ((run_events (print_csv_header_once s).2 events).1,
     (print_csv_header_once s).1 ++ (run_events (print_csv_header_once s).2 events).2)

/-! ## CLI parsing and `main` (schedlab_user.c) -/

/-- Decimal-digit prefix accumulator used by the `atoi`/`atoll` model. -/
def dec_digits : List Char → Nat → Nat
  | c :: rest, acc => if c.isDigit then dec_digits rest (acc * 10 + (c.toNat - 48)) else acc
  | [], acc => acc

/-- Model of C `atoi`/`atoll`: leading whitespace, optional sign, then the
longest decimal-digit prefix (0 when none). -/
def atoi (s : String) : Int :=
  match s.toList.dropWhile (fun c => c == ' ' || c == '\t' || c == '\n') with
  | '-' :: rest => -(dec_digits rest 0 : Int)
  | '+' :: rest => (dec_digits rest 0 : Int)
  | cs => (dec_digits cs 0 : Int)

/-- The `(__u32)` cast applied to `atoi`'s result for `--filter-pid`. -/
def u32_of_int (i : Int) : Nat := (i % ((2 : Int) ^ 32)).toNat

/-- The `(__u64)atoll(v) * 1000000ULL` computation for `--wait-alert-ms`. -/
def wait_alert_of_arg (v : String) : Nat :=
  ((atoi v % ((2 : Int) ^ 64)).toNat * 1000000) % U64

/-- The consumer's option globals, as set by the argument loop in `main`. -/
structure CliState where
  mode : Mode
  filter_pid : Nat
  wait_alert_ns : Nat
  csv : Bool
  csv_header : Bool
deriving DecidableEq

/-- The globals' initializers: stream mode, no filter, 5 ms alert threshold,
CSV off. -/
def cli_default : CliState :=
  ⟨.MODE_STREAM, 0, 5 * 1000 * 1000, false, false⟩

/-- The argument loop of `main`: each recognized flag updates a global;
an unrecognized argument (or a value-taking flag with no following argument)
aborts with usage, modelled as `none`. -/
def parse_cli : List String → CliState → Option CliState
  | [], g => some g
  | "--mode" :: v :: rest, g => parse_cli rest { g with mode := parse_mode v }
  | "--filter-pid" :: v :: rest, g =>
    parse_cli rest { g with filter_pid := u32_of_int (atoi v) }
  | "--wait-alert-ms" :: v :: rest, g =>
    parse_cli rest { g with wait_alert_ns := wait_alert_of_arg v }
  | "--csv" :: rest, g => parse_cli rest { g with csv := true }
  | "--csv-header" :: rest, g => parse_cli rest { g with csv_header := true }
  | _, _ => none

/-- Environment outcomes `main` cannot decide for itself: whether each libbpf
setup step succeeds, and the records the ring buffer delivers before the
stop flag ends the poll loop. -/
structure Env where
  openOk : Bool
  cfgOk : Bool
  attachOk : Bool
  ringOk : Bool
  events : List Event

/-- The observable outcome of one `main` run: process exit code, stderr
diagnostics, whether `schedlab_bpf__destroy` / `ring_buffer__free` ran, and
the stdout lines. -/
structure MainResult where
  exitCode : Nat
  stderrLines : List String
  skelDestroyed : Bool
  ringFreed : Bool
  out : List Line
deriving DecidableEq

/-- The usage diagnostic `usage()` prints to stderr. -/
def usage_msg : String :=
  "Usage: sudo ./schedlab [--mode MODE] [--filter-pid N] [--wait-alert-ms M] [--csv] [--csv-header]"

/-- Mirror of `main` from schedlab_user.c: parse arguments (usage error exits 1),
open+load the skeleton (2 on failure), write `cfg_map` (3, after destroying
the skeleton), attach (4, likewise), create the ring buffer (5, likewise),
then print the banner or header, poll until stopped, and tear down, exiting
0. -/
def mainRun (args : List String) (env : Env) : MainResult :=
  match parse_cli args cli_default with
  | none => ⟨1, [usage_msg], false, false, []⟩
  | some g =>
    if !env.openOk then ⟨2, ["open_and_load"], false, false, []⟩
    else if !env.cfgOk then ⟨3, ["bpf_map_update_elem(cfg_map)"], true, false, []⟩
    else if !env.attachOk then ⟨4, ["attach"], true, false, []⟩
    else if !env.ringOk then ⟨5, ["ring_buffer__new"], true, false, []⟩
    else
      let st : CState := ⟨g.mode, g.csv, g.csv_header, fun _ => aggUserZero⟩
      let banner : List String := if !g.csv then ["schedlab attached"] else []
      ⟨0, banner, true, true, (consumer_run st env.events).2⟩

/-! ## Concrete inputs used by the claim theorems -/

/-- The configuration of the C1 failing input: a non-zero wait-alert
threshold of 50 ns and no pid filter. -/
def cfgC1 : Cfg := ⟨50, 0⟩

/-- The kernel state of the C1 failing input: task 2 has an outstanding wake
stamp at t=40, so a switch-in at t=100 computes `wait_ns = 60 ≥ 50`. -/
def stC1 : KState :=
  ⟨fun p => if p = 2 then some 40 else none, fun _ => none, fun _ => none⟩

/-- A configuration whose filter pid (5) matches neither side of the C3/C6
counterexample firings. -/
def cfgF5 : Cfg := ⟨0, 5⟩

/-- Kernel state for the C3 counterexample: task 2 has a wake stamp at
t=10. -/
def stC3 : KState :=
  ⟨fun p => if p = 2 then some 10 else none, fun _ => none, fun _ => none⟩

/-- Kernel state for the C3 witness: task 2 woke at t=40. -/
def stW3 : KState :=
  ⟨fun p => if p = 2 then some 40 else none, fun _ => none, fun _ => none⟩

/-- Kernel state for the C4 counterexample and witness: no aggregates yet;
pid 0 even has a stale on-CPU stamp, which the `prev_pid` guard must
ignore. -/
def stC4 : KState :=
  ⟨fun _ => none, fun p => if p = 0 then some 30 else none, fun _ => none⟩

/-- Kernel state for the C6 counterexample and witness: task 3 has a wake
stamp at t=7 and an on-CPU stamp at t=9. -/
def stC6 : KState :=
  ⟨fun p => if p = 3 then some 7 else none,
   fun p => if p = 3 then some 9 else none, fun _ => none⟩

/-- The pids whose `agg_tbl` slots the aggregate block of `handle_event`
writes for a record: the primary pid (for `last_seen_ns`) plus, for a
switch record, the payload's prev and next pids. -/
def touched_pids (e : Event) : List Nat :=
  e.pid :: (if e.type = .EV_SWITCH then
    [(e.sw.getD swZero).prev_pid, (e.sw.getD swZero).next_pid] else [])

/-- Initial consumer state of the C2 scenario: stream mode, no CSV, zeroed
aggregate array. -/
def s0C2 : CState := ⟨.MODE_STREAM, false, false, fun _ => aggUserZero⟩

/-- First C2 event: a wake of task 1. -/
def e1C2 : Event := ⟨3, .EV_WAKE, 1, some "a", none⟩

/-- Second C2 event: a wake of task 65537, whose slot 65537 % 65536 = 1
collides with task 1's. -/
def e2C2 : Event := ⟨5, .EV_WAKE, 65537, some "b", none⟩

/-- An environment in which every libbpf setup step succeeds and the ring
delivers no records. -/
def envAllOk : Env := ⟨true, true, true, true, []⟩

/-! ## Helper lemmas -/

/-- On in-range operands with a monotone clock, the source's 64-bit modular
subtraction is plain subtraction. -/
theorem u64sub_eq {a b : Nat} (hba : b ≤ a) (ha : a < U64) : u64sub a b = a - b := by
  have hb : b < U64 := lt_of_le_of_lt hba ha
  unfold u64sub
  rw [Nat.mod_eq_of_lt ha, Nat.mod_eq_of_lt hb]
  have h1 : U64 + a - b = (a - b) + U64 := by omega
  rw [h1, Nat.add_mod_right, Nat.mod_eq_of_lt (by omega)]

/-- Reading `A` at a pid whose slot differs from the written pid's slot sees
the old table. -/
theorem A_write_ne {t : AggTbl} {p q : Nat} {v : AggUser}
    (h : p % HSIZE ≠ q % HSIZE) : A (A_write t p v) q = A t q := by
  unfold A A_write
  exact if_neg fun hc => h (hc.symm)

/-! ## Claim theorems -/

/-- Claim C1 (code bug): at a switch firing whose computed `wait_ns` (60)
meets the non-zero configured threshold (50), with ring-buffer reservation
succeeding, `on_switch_btf` emits only the EV_SWITCH record — no EV_WAITLONG
record at all, although the event-type enum, the `cfg` comment, the
consumer's starvation mode and the assignment text all document the alert.
-/
theorem c1_no_waitlong_emitted :
    cfgC1.wait_alert_ns ≠ 0 ∧
    (∀ e ∈ (on_switch_btf cfgC1 100 1 2 "p" "n" true stC1).2,
       ∀ sw, e.sw = some sw → cfgC1.wait_alert_ns ≤ sw.wait_ns) ∧
    (on_switch_btf cfgC1 100 1 2 "p" "n" true stC1).2 =
      [{ ts_ns := 100, type := .EV_SWITCH, pid := 2, comm := none,
         sw := some ⟨1, 2, "p", "n", 0, 60⟩ }] ∧
    (∀ e ∈ (on_switch_btf cfgC1 100 1 2 "p" "n" true stC1).2,
       e.type ≠ .EV_WAITLONG) := by
  refine ⟨by decide, by decide, by decide, by decide⟩

/-- Claim C3 counterexample: a switch firing with `next_pid = 2 ≠ 0` that is
rejected by the pid filter (filter 5, prev 1, next 2) neither sets the
on-CPU stamp of `next` to `now` nor deletes its wake stamp, contradicting
the claim's unconditional reading. -/
theorem c3_counterexample :
    (on_switch_btf cfgF5 100 1 2 "p" "n" true stC3).1.oncpu_ts 2 ≠ some 100 ∧
    (on_switch_btf cfgF5 100 1 2 "p" "n" true stC3).1.wake_ts 2 = some 10 ∧
    (on_switch_btf cfgF5 100 1 2 "p" "n" true stC3).2 = [] := by
  refine ⟨by decide, by decide, by decide⟩

/-- Claim C3 (amended): for every switch firing with non-zero `next_pid`
that passes the pid filter and whose recorded wake stamp (if any) is at most
`now` (monotone clock, in-range timestamps): after the firing the wake stamp
for `next` is gone, its on-CPU stamp equals `now`, and any emitted record's
payload carries `wait_ns = now - wake_stamp` when a stamp existed and
`wait_ns = 0` otherwise. -/
theorem c3_amended (cfg : Cfg) (now prev_pid next_pid : Nat) (pc nc : String)
    (reserveOk : Bool) (st : KState)
    (hpass : pass_filter cfg next_pid = true ∨ pass_filter cfg prev_pid = true)
    (hnext : next_pid ≠ 0)
    (hnow : now < U64)
    (hmono : ∀ w, st.wake_ts next_pid = some w → w ≤ now) :
    (on_switch_btf cfg now prev_pid next_pid pc nc reserveOk st).1.wake_ts next_pid = none ∧
    (on_switch_btf cfg now prev_pid next_pid pc nc reserveOk st).1.oncpu_ts next_pid = some now ∧
    (∀ e ∈ (on_switch_btf cfg now prev_pid next_pid pc nc reserveOk st).2,
       ∀ sw, e.sw = some sw →
         sw.wait_ns = (match st.wake_ts next_pid with
                       | some w => now - w
                       | none => 0)) := by
  have hfilt : (!(pass_filter cfg next_pid) && !(pass_filter cfg prev_pid)) = false := by
    rcases hpass with h | h <;> simp [h]
  unfold on_switch_btf
  rw [hfilt]
  rcases hw : st.wake_ts next_pid with _ | w
  · cases reserveOk <;> simp [hw, hnext, mapUpdate, mapDelete]
  · have hsub := u64sub_eq (hmono w hw) hnow
    cases reserveOk <;> simp [hw, hnext, mapUpdate, mapDelete, hsub]

/-- Witness for `c3_amended`: an unfiltered switch-in of task 2 at t=100
with a wake stamp at t=40 consumes the stamp, stamps the CPU, and reports
`wait_ns = 60`. -/
theorem c3_amended_witness :
    (on_switch_btf ⟨0, 0⟩ 100 1 2 "p" "n" true stW3).1.wake_ts 2 = none ∧
    (on_switch_btf ⟨0, 0⟩ 100 1 2 "p" "n" true stW3).1.oncpu_ts 2 = some 100 ∧
    (∀ e ∈ (on_switch_btf ⟨0, 0⟩ 100 1 2 "p" "n" true stW3).2,
       ∀ sw, e.sw = some sw →
         sw.wait_ns = (match stW3.wake_ts 2 with
                       | some w => 100 - w
                       | none => 0)) :=
  c3_amended ⟨0, 0⟩ 100 1 2 "p" "n" true stW3 (Or.inl (by decide)) (by decide)
    (by decide) (fun w hw => by simp [stW3] at hw; omega)

/-- Reading another key through the map `agg_touch` returns leaves it
unchanged. -/
theorem agg_touch_read_ne {m : Nat → Option Agg} {p q : Nat} (h : p ≠ q) :
    (agg_touch m p).1 q = m q := by
  unfold agg_touch
  rcases m p with _ | a
  · unfold mapUpdate
    exact if_neg fun hc => h hc.symm
  · rfl

/-- Claim C4 counterexample: a switch firing with `prev_pid = 0` does create
and update an aggregate entry for pid 0 — `agg_touch(prev_pid)` runs
unconditionally, so the idle task's `switches` counter becomes 1 —
contradicting the claim's "no aggregate entry for prev is created or
updated". -/
theorem c4_counterexample :
    stC4.agg_by_pid 0 = none ∧
    (on_switch_btf ⟨0, 0⟩ 100 0 2 "i" "n" true stC4).1.agg_by_pid 0 =
      some { aggZero with switches := 1 } := by
  refine ⟨rfl, by decide⟩

/-- Claim C4 (amended): for a switch firing with `prev_pid = 0` and non-zero
`next_pid` that passes the pid filter, every emitted record reports
`run_ns = 0` (the on-CPU stamp of pid 0 is never consulted), but the
aggregate entry for pid 0 is still touched: its `switches` counter is
incremented (its other fields, `total_run_ns` included, are unchanged). -/
theorem c4_amended (cfg : Cfg) (now next_pid : Nat) (pc nc : String)
    (reserveOk : Bool) (st : KState)
    (hpass : pass_filter cfg next_pid = true ∨ pass_filter cfg 0 = true)
    (hnext : next_pid ≠ 0) :
    (∀ e ∈ (on_switch_btf cfg now 0 next_pid pc nc reserveOk st).2,
       ∀ sw, e.sw = some sw → sw.run_ns = 0) ∧
    (on_switch_btf cfg now 0 next_pid pc nc reserveOk st).1.agg_by_pid 0 =
      some { (st.agg_by_pid 0).getD aggZero with
             switches := ((st.agg_by_pid 0).getD aggZero).switches + 1 } := by
  have hfilt : (!(pass_filter cfg next_pid) && !(pass_filter cfg 0)) = false := by
    rcases hpass with h | h <;> simp [h]
  unfold on_switch_btf
  rw [hfilt]
  rcases ha : st.agg_by_pid 0 with _ | a
  · have h0 : agg_touch st.agg_by_pid 0 = (mapUpdate st.agg_by_pid 0 aggZero, aggZero) := by
      simp [agg_touch, ha]
    cases reserveOk <;>
      simp [h0, mapUpdate, hnext, Ne.symm hnext, agg_touch_read_ne hnext, ha]
  · have h0 : agg_touch st.agg_by_pid 0 = (st.agg_by_pid, a) := by
      simp [agg_touch, ha]
    cases reserveOk <;>
      simp [h0, mapUpdate, hnext, Ne.symm hnext, agg_touch_read_ne hnext, ha]

/-- Witness for `c4_amended`: the concrete idle-to-task-2 switch of the C4
setup reports `run_ns = 0` yet bumps pid 0's `switches` to 1. -/
theorem c4_amended_witness :
    (∀ e ∈ (on_switch_btf ⟨0, 0⟩ 100 0 2 "i" "n" true stC4).2,
       ∀ sw, e.sw = some sw → sw.run_ns = 0) ∧
    (on_switch_btf ⟨0, 0⟩ 100 0 2 "i" "n" true stC4).1.agg_by_pid 0 =
      some { (stC4.agg_by_pid 0).getD aggZero with
             switches := ((stC4.agg_by_pid 0).getD aggZero).switches + 1 } :=
  c4_amended ⟨0, 0⟩ 100 2 "i" "n" true stC4 (Or.inl (by decide)) (by decide)

/-- Claim C5 (confirmed): when ring-buffer reservation fails, the switch
handler emits nothing, and the kernel state it leaves behind is exactly the
state a successful reservation would leave: the wake-stamp deletion, on-CPU
stamp write and aggregate increments performed before the reservation are
retained, never rolled back. -/
theorem c5_drop_no_rollback (cfg : Cfg) (now prev_pid next_pid : Nat)
    (pc nc : String) (st : KState) :
    (on_switch_btf cfg now prev_pid next_pid pc nc false st).2 = [] ∧
    (on_switch_btf cfg now prev_pid next_pid pc nc false st).1 =
      (on_switch_btf cfg now prev_pid next_pid pc nc true st).1 := by
  constructor <;> (unfold on_switch_btf; split <;> rfl)

/-- Claim C6 counterexample: a leader exit (`pid = tid = 3`) rejected by the
pid filter (filter 5) returns with both stamps still in place and no EXIT
record, contradicting the claim's "otherwise it deletes both stamps and
emits". -/
theorem c6_counterexample :
    (on_exit_btf cfgF5 3 3 100 "c" true stC6).1.wake_ts 3 = some 7 ∧
    (on_exit_btf cfgF5 3 3 100 "c" true stC6).1.oncpu_ts 3 = some 9 ∧
    (on_exit_btf cfgF5 3 3 100 "c" true stC6).2 = [] := by
  refine ⟨by decide, by decide, by decide⟩

/-- Claim C6 (amended): a non-leader exit returns with no event and no state
change; a leader exit that also passes the pid filter deletes both the wake
and on-CPU stamps of the pid, leaves the aggregate table untouched, and
emits the EXIT record exactly when ring-buffer reservation succeeds. -/
theorem c6_amended (cfg : Cfg) (pid tid now : Nat) (comm : String)
    (reserveOk : Bool) (st : KState) :
    (pid ≠ tid → on_exit_btf cfg pid tid now comm reserveOk st = (st, [])) ∧
    (pid = tid → pass_filter cfg pid = true →
      (on_exit_btf cfg pid tid now comm reserveOk st).1.wake_ts pid = none ∧
      (on_exit_btf cfg pid tid now comm reserveOk st).1.oncpu_ts pid = none ∧
      (on_exit_btf cfg pid tid now comm reserveOk st).1.agg_by_pid = st.agg_by_pid ∧
      (on_exit_btf cfg pid tid now comm reserveOk st).2 =
        (if reserveOk then
           [{ ts_ns := now, type := .EV_EXIT, pid := pid, comm := some comm, sw := none }]
         else [])) := by
  constructor
  · intro h
    simp [on_exit_btf, h]
  · intro heq hpf
    subst heq
    cases reserveOk <;> simp [on_exit_btf, hpf, mapDelete]

/-- Witness for `c6_amended`: the unfiltered leader exit of task 3 removes
both stamps, keeps the aggregates, and emits the EXIT record. -/
theorem c6_amended_witness :
    (on_exit_btf ⟨0, 0⟩ 3 3 100 "c" true stC6).1.wake_ts 3 = none ∧
    (on_exit_btf ⟨0, 0⟩ 3 3 100 "c" true stC6).1.oncpu_ts 3 = none ∧
    (on_exit_btf ⟨0, 0⟩ 3 3 100 "c" true stC6).1.agg_by_pid = stC6.agg_by_pid ∧
    (on_exit_btf ⟨0, 0⟩ 3 3 100 "c" true stC6).2 =
      (if true then
         [{ ts_ns := 100, type := .EV_EXIT, pid := 3, comm := some "c", sw := none }]
       else []) :=
  (c6_amended ⟨0, 0⟩ 3 3 100 "c" true stC6).2 rfl (by decide)

/-- Claim C7 (confirmed): a switch firing whose non-zero configured filter
pid matches neither `prev_pid` nor `next_pid` returns immediately: the
kernel state is untouched and no record is emitted. -/
theorem c7_filter_frame (cfg : Cfg) (now prev_pid next_pid : Nat)
    (pc nc : String) (reserveOk : Bool) (st : KState)
    (h0 : cfg.sample_filter_pid ≠ 0)
    (hp : cfg.sample_filter_pid ≠ prev_pid)
    (hn : cfg.sample_filter_pid ≠ next_pid) :
    on_switch_btf cfg now prev_pid next_pid pc nc reserveOk st = (st, []) := by
  have h1 : pass_filter cfg next_pid = false := by simp [pass_filter, h0, hn]
  have h2 : pass_filter cfg prev_pid = false := by simp [pass_filter, h0, hp]
  unfold on_switch_btf
  rw [h1, h2]
  rfl

/-- Witness for `c7_filter_frame`: with filter pid 5 and a 1-to-2 switch,
the handler is a no-op on the C3 counterexample state. -/
theorem c7_filter_frame_witness :
    on_switch_btf cfgF5 9 1 2 "p" "n" true stC3 = (stC3, []) :=
  c7_filter_frame cfgF5 9 1 2 "p" "n" true stC3 (by decide) (by decide) (by decide)

/-- Lemma: `handle_event` changes the aggregate table exactly as `update_aggs`
does; the header printer never touches it. -/
theorem handle_event_agg (s : CState) (e : Event) :
    (handle_event s e).1.agg = update_aggs s.agg e := by
  simp only [handle_event, print_csv_header_once]
  split <;> rfl

/-- Slots of `agg_tbl` other than those of the record's touched pids are
unchanged by one aggregate update. -/
theorem update_aggs_frame (t : AggTbl) (e : Event) (q : Nat)
    (h : ∀ p ∈ touched_pids e, p % HSIZE ≠ q % HSIZE) :
    A (update_aggs t e) q = A t q := by
  have hpid : e.pid % HSIZE ≠ q % HSIZE := h e.pid (by simp [touched_pids])
  simp only [update_aggs]
  rw [A_write_ne hpid]
  split_ifs with h1 h2 h3 h4
  · exact A_write_ne hpid
  · rfl
  · have hp : (e.sw.getD swZero).prev_pid % HSIZE ≠ q % HSIZE :=
      h _ (by simp [touched_pids, h3])
    have hn : (e.sw.getD swZero).next_pid % HSIZE ≠ q % HSIZE :=
      h _ (by simp [touched_pids, h3])
    rw [A_write_ne hn, A_write_ne hp, A_write_ne hn, A_write_ne hp]
  · exact A_write_ne hpid
  · rfl


/-- Claim C2 counterexample: the distinct ids 1 and 65537 both appear in the
stream, yet processing the wake of 65537 modifies the aggregate read for
id 1 (`agg_tbl` is direct-mapped by `pid % 65536`, so the two ids share one
entry), contradicting "updates to one id's aggregate never modify the other
id's aggregate". -/
theorem c2_counterexample :
    A ((handle_event (handle_event s0C2 e1C2).1 e2C2).1.agg) 1 ≠
      A ((handle_event s0C2 e1C2).1.agg) 1 := by
  have h2 : (A ((handle_event (handle_event s0C2 e1C2).1 e2C2).1.agg) 1).wakes = 2 := rfl
  have h1 : (A ((handle_event s0C2 e1C2).1.agg) 1).wakes = 1 := rfl
  intro h
  rw [h, h1] at h2
  exact absurd h2 (by decide)

/-- Claim C2 (amended): the user-side table is direct-mapped by
`pid % 65536` rather than per-id: processing a record leaves the aggregate
read for every id whose slot differs from the slots of all pids the record
touches unchanged — so two ids interfere exactly when their slots collide —
and entries are never evicted (the fixed array has no removal operation, so
an exit event still reads whatever the id's slot accumulated). -/
theorem c2_amended (s : CState) (e : Event) (q : Nat)
    (h : ∀ p ∈ touched_pids e, p % HSIZE ≠ q % HSIZE) :
    A ((handle_event s e).1.agg) q = A s.agg q := by
  rw [handle_event_agg]
  exact update_aggs_frame s.agg e q h

/-- Witness for `c2_amended`: the wake of task 1 leaves task 2's aggregate
untouched. -/
theorem c2_amended_witness :
    (∀ p ∈ touched_pids e1C2, p % HSIZE ≠ 2 % HSIZE) ∧
    A ((handle_event s0C2 e1C2).1.agg) 2 = A s0C2.agg 2 :=
  ⟨by decide, c2_amended s0C2 e1C2 2 (by decide)⟩

/-- Data rows injected into the line type are never the header line. -/
theorem filter_isHeader_map_row (rs : List Row) :
    (rs.map Line.row).filter isHeader = [] := by
  induction rs with
  | nil => rfl
  | cons r rs ih => simp [isHeader, ih]

/-- Once the header flag is down, `handle_event` keeps it down and emits
only data rows. -/
theorem handle_event_flag (s : CState) (e : Event) (h : s.csv_header = false) :
    (handle_event s e).1.csv_header = false ∧
    (handle_event s e).2.filter isHeader = [] := by
  simp only [handle_event, print_csv_header_once]
  simp [h, filter_isHeader_map_row]

/-- With the header flag down, a whole run emits no header line. -/
theorem run_events_no_header (events : List Event) (s : CState)
    (h : s.csv_header = false) :
    (run_events s events).2.filter isHeader = [] := by
  induction events generalizing s with
  | nil => rfl
  | cons e rest ih =>
    obtain ⟨hf, hl⟩ := handle_event_flag s e h
    simp only [run_events]
    simp [List.filter_append, hl, ih _ hf]

/-- Claim C8 (confirmed): with CSV output and the header flag both enabled,
the whole run's stdout contains the active mode's header line exactly once,
and it is the very first line, preceding every data row — for any mode, any
starting aggregate table and any delivered event stream. -/
theorem c8_header_once (m : Mode) (t0 : AggTbl) (events : List Event) :
    ((consumer_run ⟨m, true, true, t0⟩ events).2.filter isHeader = [Line.header m]) ∧
    ((consumer_run ⟨m, true, true, t0⟩ events).2.head? = some (Line.header m)) := by
  have hpr : print_csv_header_once ⟨m, true, true, t0⟩ =
      ([Line.header m], ⟨m, true, false, t0⟩) := rfl
  have hrest := run_events_no_header events ⟨m, true, false, t0⟩ rfl
  constructor
  · simp [consumer_run, hpr, List.filter_append, hrest, isHeader]
  · simp [consumer_run, hpr]


/-- Claim C9 (confirmed): the consumer exits 1 on an unrecognized argument
(with a usage diagnostic on stderr), 2 when open/load fails (nothing yet
created to destroy), 3 when the configuration-map write fails, 4 when attach
fails, 5 when ring-buffer creation fails — each later failure after
destroying the skeleton and with a diagnostic on stderr — and 0 on a clean
run, after freeing the ring and destroying the skeleton. -/
theorem c9_exit_codes (args : List String) (env : Env) :
    (parse_cli args cli_default = none →
       (mainRun args env).exitCode = 1 ∧ (mainRun args env).stderrLines ≠ []) ∧
    (parse_cli args cli_default ≠ none →
       (env.openOk = false →
          (mainRun args env).exitCode = 2 ∧ (mainRun args env).stderrLines ≠ [] ∧
          (mainRun args env).skelDestroyed = false) ∧
       (env.openOk = true → env.cfgOk = false →
          (mainRun args env).exitCode = 3 ∧ (mainRun args env).stderrLines ≠ [] ∧
          (mainRun args env).skelDestroyed = true) ∧
       (env.openOk = true → env.cfgOk = true → env.attachOk = false →
          (mainRun args env).exitCode = 4 ∧ (mainRun args env).stderrLines ≠ [] ∧
          (mainRun args env).skelDestroyed = true) ∧
       (env.openOk = true → env.cfgOk = true → env.attachOk = true → env.ringOk = false →
          (mainRun args env).exitCode = 5 ∧ (mainRun args env).stderrLines ≠ [] ∧
          (mainRun args env).skelDestroyed = true) ∧
       (env.openOk = true → env.cfgOk = true → env.attachOk = true → env.ringOk = true →
          (mainRun args env).exitCode = 0 ∧ (mainRun args env).skelDestroyed = true ∧
          (mainRun args env).ringFreed = true)) := by
  rcases hp : parse_cli args cli_default with _ | g
  · refine ⟨fun _ => ?_, fun hne => absurd rfl hne⟩
    constructor <;> simp [mainRun, hp, usage_msg]
  · refine ⟨fun hnone => by simp [hp] at hnone, fun _ => ?_⟩
    obtain ⟨o, c, a, r, evs⟩ := env
    cases o <;> cases c <;> cases a <;> cases r <;>
      simp [mainRun, hp, usage_msg]

/-- Witness for `c9_exit_codes`: the unknown flag case exits 1 with a
diagnostic. -/
theorem c9_exit_codes_witness :
    parse_cli ["--frobnicate"] cli_default = none ∧
    (mainRun ["--frobnicate"] envAllOk).exitCode = 1 ∧
    (mainRun ["--frobnicate"] envAllOk).stderrLines ≠ [] :=
  ⟨by decide, ((c9_exit_codes ["--frobnicate"] envAllOk).1 (by decide)).1,
   ((c9_exit_codes ["--frobnicate"] envAllOk).1 (by decide)).2⟩

/-- Claim C10 (confirmed): any `--mode` value outside the known mode names
parses to `MODE_STREAM`, so the consumer accepts the flag and runs in stream
mode (exit 0 in a clean environment) instead of reporting a CLI error. -/
theorem c10_unknown_mode_stream (s : String) (h : s ∉ mode_names) :
    parse_mode s = .MODE_STREAM ∧
    parse_cli ["--mode", s] cli_default = some cli_default ∧
    (mainRun ["--mode", s] envAllOk).exitCode = 0 := by
  have hpm : parse_mode s = .MODE_STREAM := by
    simp [mode_names] at h
    obtain ⟨h1, h2, h3, h4, h5, h6, h7⟩ := h
    simp [parse_mode, find_mode, mode_tbl, h1, h2, h3, h4, h5, h6, h7]
  have hp : parse_cli ["--mode", s] cli_default = some cli_default := by
    show some { cli_default with mode := parse_mode s } = some cli_default
    rw [hpm]
    rfl
  refine ⟨hpm, hp, ?_⟩
  simp [mainRun, hp, envAllOk]

/-- Witness for `c10_unknown_mode_stream` at the unknown mode name
"bogus". -/
theorem c10_unknown_mode_stream_witness :
    ("bogus" ∉ mode_names) ∧ parse_mode "bogus" = .MODE_STREAM ∧
    parse_cli ["--mode", "bogus"] cli_default = some cli_default ∧
    (mainRun ["--mode", "bogus"] envAllOk).exitCode = 0 :=
  ⟨by decide, (c10_unknown_mode_stream "bogus" (by decide)).1,
   (c10_unknown_mode_stream "bogus" (by decide)).2.1,
   (c10_unknown_mode_stream "bogus" (by decide)).2.2⟩

end SchedLab
